import Mathlib

/-!
Shallow embedding of the claim-verification pipeline of the
Fake-News-Detection repository, together with theorems settling the
spec claims about it.

Conventions used throughout:
* Python floats are modelled as rationals (`ℚ`); all the constants in the
  verdict policy (0.5, 0.7, 0.9, ...) are exact decimal literals, so the
  rational model mirrors the source arithmetic.
* External collaborators (the Google-News RSS feed, the NewsAPI HTTP
  endpoint, the sentence-transformer / TF-IDF embedding backends) are
  modelled as explicit outcome parameters: the embedding of a function
  that calls such a collaborator takes the collaborator's observable
  result (raised / status code / returned vector) as an argument and is
  otherwise a direct translation of the source.
* Strings are handled over their character lists for the regex-like
  tokenisation; only ASCII behaviour is modelled, matching the inputs the
  scripts are written for.
-/

namespace MainTesting

/-! ### Data model (src/News Detection/main testing.py)

`NewsIt` models the news-item dict built by `fetch_google_news`
(`title`, `description`, `link`, `source`; the `published` field is
stored by the source but never read downstream and is omitted).  The
`similarity` field models the `'similarity'` dict key: before
`calculate_semantic_similarity` assigns it, every read in the source
goes through `item.get('similarity', 0.0)`, so the absent key behaves
exactly like the value `0`, which is the initial value used here. -/
structure NewsIt where
  title : String
  description : String
  link : String
  source : String
  similarity : ℚ
deriving DecidableEq, Repr

/-- Result record of `analyze_claim_against_news`. -/
structure Analysis where
  verdict : String
  confidence : ℚ
  summary : String
deriving DecidableEq, Repr

/-- Python `max` over a list of rationals; the source only applies it to
non-empty lists (it is guarded by `if not similarities`), the `[]` case
returns `0` as a junk value. -/
def maxQ : List ℚ → ℚ
  | [] => 0
  | [x] => x
  | x :: y :: xs => max x (maxQ (y :: xs))

/-! ### Keyword extraction (`extract_keywords`, main testing.py lines 171-181) -/

/-- The stopword set of `extract_keywords` (main testing.py line 174). -/
def stopwords : List String :=
  ["the", "a", "an", "and", "or", "but", "in", "on", "at", "to", "for",
   "of", "with", "by", "is", "was", "are", "were", "be", "been", "being",
   "have", "has", "had", "do", "does", "did", "will", "would", "could",
   "should"]

/-- ASCII lower-casing, modelling `str.lower()` on the ASCII inputs the
script handles. -/
def lowerChar (c : Char) : Char :=
  if 'A' ≤ c ∧ c ≤ 'Z' then Char.ofNat (c.toNat + 32) else c

/-- Lower-case ASCII letter test (letters of the lowered claim matched by
`[a-zA-Z]`). -/
def isLowAlpha (c : Char) : Bool :=
  'a' ≤ c && c ≤ 'z'

/-- Regex word-character test (`\w` = letters, digits, underscore) on the
lowered text, used to model the `\b` boundaries of `\b[a-zA-Z]+\b`. -/
def isWordCh (c : Char) : Bool :=
  isLowAlpha c || c.isDigit || c = '_'

/-- Split a character list into its maximal runs of word characters
(`cur` accumulates the current run in reverse). -/
def wordRunsAux (cur : List Char) : List Char → List (List Char)
  | [] => if cur.isEmpty then [] else [cur.reverse]
  | c :: cs =>
    if isWordCh c then wordRunsAux (c :: cur) cs
    else if cur.isEmpty then wordRunsAux [] cs
    else cur.reverse :: wordRunsAux [] cs

/-- Tokens of `re.findall(r'\b[a-zA-Z]+\b', claim.lower())`: a maximal
run of word characters is a match exactly when it consists of letters
only (a run containing a digit or underscore has no `\b` boundary inside
it, so its letter segments do not match). -/
def reWords (claim : String) : List String :=
  ((wordRunsAux [] (claim.data.map lowerChar)).filter
    (fun r => r.all isLowAlpha)).map (fun r => String.mk r)

/-- Keyword list of `extract_keywords`: drop stopwords and words of
length ≤ 2, keep the first 6. -/
def keywordList (claim : String) : List String :=
  ((reWords claim).filter
    (fun w => !(stopwords.contains w) && 2 < w.length)).take 6

/-- Python `' '.join`. -/
def joinSpace : List String → String
  | [] => ""
  | [w] => w
  | w :: ws => w ++ " " ++ joinSpace ws

/-- `extract_keywords` (main testing.py lines 171-181).  Note: the source
returns `' '.join(keywords[:6])` directly — there is no fallback to the
original claim when every token is filtered out. -/
def extract_keywords (claim : String) : String :=
  joinSpace (keywordList claim)

/-! ### Article retrieval (`fetch_google_news`, main testing.py lines 183-223) -/

/-- An RSS entry as seen by the source: `entry.title`,
`getattr(entry, 'summary', '')`, `getattr(entry, 'link', '')` (the
`getattr` defaults are folded into the fields). -/
structure Entry where
  title : String
  summary : String
  link : String
deriving DecidableEq, Repr

/-- Observable outcome of the external feed fetch/parse: either some
exception was raised inside the `try` block (network failure,
unreachable source, parser crash), or a feed was parsed, carrying its
(possibly empty) entry list.  A non-success HTTP status or a feed with
zero matches both surface as `feed []`; the `bozo` flag only logs. -/
inductive FetchOutcome where
  | exc : FetchOutcome
  | feed : List Entry → FetchOutcome

/-- Title/source splitting of one feed entry (main testing.py lines
200-215): Google News titles have the form `"Title - Source"`. -/
def entryToItem (e : Entry) : NewsIt :=
  let titleParts := e.title.splitOn " - "
  if 1 < titleParts.length then
    { title := String.intercalate " - " titleParts.dropLast
      description := e.summary
      link := e.link
      source := titleParts.getLastD ""
      similarity := 0 }
  else
    { title := e.title
      description := e.summary
      link := e.link
      source := "Unknown Source"
      similarity := 0 }

/-- `fetch_google_news` (main testing.py lines 183-223): on any raised
exception the `except` branch returns `[]`; otherwise the first
`max_results` entries are converted to news items. -/
def fetch_google_news (outcome : FetchOutcome) (max_results : ℕ := 15) :
    List NewsIt :=
  match outcome with
  | .exc => []
  | .feed entries => (entries.take max_results).map entryToItem

/-! ### Similarity scoring (`calculate_semantic_similarity`,
main testing.py lines 225-271) -/

/-- Observable outcome of the embedding backend: the module-level model
failed to load (`model is None`), the `encode`/`dot` computation raised,
or it returned the vector of claim-vs-article scores
(`np.dot(claim_embedding, news_embeddings.T).flatten()`, one entry per
news text). -/
inductive EmbedOutcome where
  | noModel : EmbedOutcome
  | exc : EmbedOutcome
  | ok : List ℚ → EmbedOutcome

/-- The assignment loop (main testing.py lines 255-259):
`item['similarity'] = similarities[i]` for `i < len(similarities)`,
else `0.0`. -/
def assignSims (sims : List ℚ) (items : List NewsIt) : List NewsIt :=
  items.enum.map (fun p =>
    { p.2 with similarity := if p.1 < sims.length then sims.getD p.1 0 else 0 })

/-- One step of a stable descending sort on the `similarity` key: the
element `x` (earlier in retrieval order) is inserted after exactly the
elements whose score is strictly greater, so equal scores keep their
original order.  `news_items.sort(key=lambda x: x['similarity'],
reverse=True)` is Python's stable sort with this key, and a stable sort
by a key is uniquely determined, so this insertion sort computes the
same list. -/
def insertDescSim (x : NewsIt) : List NewsIt → List NewsIt
  | [] => [x]
  | y :: ys =>
    if x.similarity < y.similarity then y :: insertDescSim x ys
    else x :: y :: ys

/-- Stable descending sort by `similarity` (main testing.py line 262). -/
def sortDescSim : List NewsIt → List NewsIt
  | [] => []
  | x :: xs => insertDescSim x (sortDescSim xs)

/-- `calculate_semantic_similarity` (main testing.py lines 225-271).
With no model, or when the embedding computation raises, every item gets
similarity `0.0` and the list is returned unsorted; otherwise the scores
are assigned positionally and the items are sorted by descending
similarity.  (`news_texts` is empty exactly when `news_items` is, which
is the early-return guard on line 245.) -/
def calculate_semantic_similarity (emb : EmbedOutcome) (items : List NewsIt) :
    List NewsIt :=
  match emb with
  | .noModel => items.map (fun it => { it with similarity := 0 })
  | .exc => items.map (fun it => { it with similarity := 0 })
  | .ok sims =>
    if items.isEmpty then items
    else sortDescSim (assignSims sims items)

/-! ### Verdict analysis (`analyze_claim_against_news`,
main testing.py lines 273-331) -/

/-- `similarities = [item.get('similarity', 0.0) for item in news_items]`. -/
def simsOf (items : List NewsIt) : List ℚ :=
  items.map (·.similarity)

/-- `high_similarity_items` (line 293). -/
def highItems (items : List NewsIt) : List NewsIt :=
  items.filter (fun it => (1 : ℚ)/2 < it.similarity)

/-- `medium_similarity_items` (line 294). -/
def medItems (items : List NewsIt) : List NewsIt :=
  items.filter (fun it => (3 : ℚ)/10 ≤ it.similarity ∧ it.similarity ≤ 1/2)

/-- The fixed negation/refutation lexicon (main testing.py line 318). -/
def contradictory_keywords : List String :=
  ["not", "never", "false", "denies", "refutes", "contrary", "opposite"]

/-- List-level string-containment helpers modelling Python's substring
test `keyword in text`. -/
def startsWithL : List Char → List Char → Bool
  | [], _ => true
  | _ :: _, [] => false
  | a :: as, b :: bs => a = b && startsWithL as bs

/-- Substring occurrence test over character lists. -/
def hasSubL (pat : List Char) : List Char → Bool
  | [] => pat.isEmpty
  | c :: rest => startsWithL pat (c :: rest) || hasSubL pat rest

/-- The per-item test of the contradiction loop (lines 319-321):
`text = f"{title} {description}".lower()` contains some lexicon word. -/
def containsContraKw (it : NewsIt) : Bool :=
  contradictory_keywords.any (fun kw =>
    hasSubL kw.data ((it.title ++ " " ++ it.description).data.map lowerChar))

/-- The base threshold policy (main testing.py lines 296-315), before the
contradiction override, returning `(verdict, confidence, summary)`.  The
interpolated numbers of the f-string summaries are elided (no claim
depends on them); `avg_top_3_similarity` (line 297) is computed by the
source but never used, and is omitted. -/
def baseVerdict (items : List NewsIt) : String × ℚ × String :=
  let m := maxQ (simsOf items)
  if 7/10 < m ∧ 2 ≤ (highItems items).length then
    ("Likely True", min (9/10) (m + 1/10),
     "Found highly similar news reports supporting this claim.")
  else if 6/10 < m then
    ("Possibly True", m * (8/10),
     "Found some news reports with moderate similarity to this claim. Verification recommended.")
  else if 4/10 < m ∧ 2 ≤ (medItems items).length then
    ("Unverified", m * (6/10),
     "Found some related news but with lower similarity scores. This claim requires further investigation.")
  else
    ("Likely False",
     if m < 4/10 then 3/10 + (4/10 - m) * (1/2) else 3/10,
     "No highly similar news reports found. The claim may be false or unsubstantiated based on current news sources.")

/-- The contradiction-override loop (main testing.py lines 317-325),
folded over `high_similarity_items[:3]`: a downgrade happens only while
the verdict is still `'Likely True'`, so the damping `confidence *= 0.7`
is applied at most once. -/
def contraFold : List NewsIt → String × ℚ × String → String × ℚ × String
  | [], st => st
  | it :: rest, (v, c, s) =>
    contraFold rest
      (if containsContraKw it ∧ v = "Likely True" then
        ("Contradictory Reports", c * (7/10),
         s ++ " However, some sources may contradict this claim.")
      else (v, c, s))

/-- `analyze_claim_against_news` (main testing.py lines 273-331). -/
def analyze_claim_against_news (items : List NewsIt) : Analysis :=
  if items = [] then
    { verdict := "Unverified", confidence := 0
      summary := "No recent news found related to this claim. Unable to verify." }
  else if simsOf items = [] ∨ maxQ (simsOf items) = 0 then
    { verdict := "Unverified", confidence := 1/10
      summary := "No semantically similar news found. This claim may be unverified or relates to very recent events not yet covered by major news sources." }
  else
    let fin := contraFold ((highItems items).take 3) (baseVerdict items)
    { verdict := fin.1, confidence := fin.2.1, summary := fin.2.2 }

/-! ### Endpoint (`check_fact`, main testing.py lines 417-490) -/

/-- HTTP-level rejections raised by the endpoint. -/
inductive HErr where
  | badRequest : HErr
deriving DecidableEq

/-- Response model `FactCheckResponse` (main testing.py lines 69-73). -/
structure FactCheckResponse where
  verdict : String
  confidence : ℚ
  analysis_summary : String
  news_sources : List NewsIt
deriving DecidableEq

/-- Python `str.strip()` over ASCII whitespace, used by the endpoint's
input validation `len(request.claim.strip()) < 3`. -/
def isSpaceCh (c : Char) : Bool :=
  c = ' ' || c = '\t' || c = '\n' || c = '\r'

/-- Python `claim.strip()`. -/
def pyStrip (s : String) : String :=
  String.mk (((s.data.dropWhile isSpaceCh).reverse.dropWhile isSpaceCh).reverse)

/-- `check_fact` (main testing.py lines 417-490), with the two external
collaborators (feed fetch, embedding backend) passed as outcomes.  The
keyword extraction feeds only the (parameterised) fetch; the search
history write is persistence glue outside the verification result and is
omitted. -/
def check_fact (claim : String) (fetched : FetchOutcome)
    (emb : EmbedOutcome) : Except HErr FactCheckResponse :=
  if (pyStrip claim).length < 3 then .error .badRequest
  else
    let news_items := fetch_google_news fetched 15
    if news_items = [] then
      .ok { verdict := "Unverified", confidence := 0
            analysis_summary := "No recent news found related to this claim. This may be a very recent event or the claim may not be newsworthy."
            news_sources := [] }
    else
      let nws := calculate_semantic_similarity emb news_items
      let analysis := analyze_claim_against_news nws
      .ok { verdict := analysis.verdict, confidence := analysis.confidence
            analysis_summary := analysis.summary
            news_sources := nws.take 10 }

end MainTesting

namespace MainPy

/-! ### src/main.py — `NewsVerifier`

The TF-IDF vectorizer and `cosine_similarity` are external library
calls; as with the other backends they enter the embedding as an
observable outcome (`VectOutcome`).  `clean_text` feeds only the
vectorizer and therefore does not appear in the verification result
being modelled; the returned sample articles are the *uncleaned*
articles (main.py line 174). -/

/-- Python `str.isalpha()` on the ASCII inputs the script handles: the
string is non-empty and every character is a letter. -/
def pyIsAlpha (w : String) : Bool :=
  !w.data.isEmpty && w.data.all
    (fun c => ('a' ≤ c && c ≤ 'z') || ('A' ≤ c && c ≤ 'Z'))

/-- The in-source `question_words` set of `query_keywords`
(main.py line 121). -/
def question_words : List String :=
  ["is", "are", "was", "were", "did", "do", "does", "has", "have", "had",
   "can", "could", "should", "would", "what", "when", "where", "who",
   "why", "how"]

/-- The list comprehension of `query_keywords` (main.py line 130):
`[w for w in words if w.isalpha() and w not in stop_words and w not in
question_words]`.  The nltk stopword corpus (`stop_words`, an external
data file) and the output of the external tokenizer
`nltk.word_tokenize(statement.lower())` (`words`) are passed as
parameters. -/
def filteredWords (stop_words words : List String) : List String :=
  words.filter (fun w =>
    pyIsAlpha w && !(stop_words.contains w) && !(question_words.contains w))

/-- `query_keywords` (main.py lines 113-131): joins the filtered words
with spaces.  As in `extract_keywords`, there is no fallback to the
original statement when every token is filtered out. -/
def query_keywords (stop_words words : List String) : String :=
  MainTesting.joinSpace (filteredWords stop_words words)

/-- Observable outcome of the NewsAPI HTTP request
(`requests.get` raised, or a response with a status code and the
articles of its JSON body; each article has optional `title` and
`description` fields). -/
inductive ApiResult where
  | exc : ApiResult
  | resp : ℕ → List (Option String × Option String) → ApiResult

/-- `get_news_articles` (main.py lines 133-148): on status 200 each
article becomes `(title or '') + " " + (description or '')`; any other
status, and any raised exception, yields `[]`. -/
def get_news_articles : ApiResult → List String
  | .exc => []
  | .resp status arts =>
    if status = 200 then
      arts.map (fun a => a.1.getD "" ++ " " ++ a.2.getD "")
    else []

/-- Observable outcome of `fit_transform` + `cosine_similarity`
(main.py lines 168-169): either the vectorizer raised (e.g. empty
vocabulary), or it produced one cosine score per article. -/
inductive VectOutcome where
  | exc : VectOutcome
  | ok : List ℚ → VectOutcome

/-- `verify_statement` (main.py lines 150-177), returning
`(is_true, confidence, article_count, sample_articles)`. -/
def verify_statement (api : ApiResult) (vect : VectOutcome) :
    Bool × ℚ × ℕ × List String :=
  let articles := get_news_articles api
  if articles = [] then (false, 0, 0, [])
  else
    match vect with
    | .exc => (false, 0, articles.length, articles.take 5)
    | .ok sims =>
      let max_similarity := MainTesting.maxQ sims
      (decide ((1 : ℚ)/20 < max_similarity), max_similarity * 100,
       articles.length, articles.take 5)

/-- The verdict label rendered for the boolean result
(main.py line 381): this implementation has no `Unverified` label. -/
def verdictLabel (is_true : Bool) : String :=
  if is_true then "LIKELY TRUE" else "LIKELY FALSE"

end MainPy

namespace NewsTesting

/-! ### src/News Detection/news testing.py

The scoring block builds `(score, title)` pairs and runs
`similarities.sort(reverse=True)` — a stable descending sort by the
*whole tuple*, so equal scores are tie-broken by descending title, not
by retrieval order. -/

/-- Python string comparison `t1 < t2`: lexicographic by code point. -/
def strLt : List Char → List Char → Bool
  | [], [] => false
  | [], _ :: _ => true
  | _ :: _, [] => false
  | a :: as, b :: bs =>
    if a.toNat < b.toNat then true
    else if b.toNat < a.toNat then false
    else strLt as bs

/-- Python tuple comparison `(s1, t1) > (s2, t2)`:
lexicographic on score then title. -/
def pairGT (a b : ℚ × String) : Bool :=
  decide (b.1 < a.1) || (decide (a.1 = b.1) && strLt b.2.data a.2.data)

/-- Stable insertion step for the descending tuple sort: the earlier
element `x` stays before `y` unless `y` is strictly greater as a tuple. -/
def insertPairDesc (x : ℚ × String) : List (ℚ × String) → List (ℚ × String)
  | [] => [x]
  | y :: ys => if pairGT y x then y :: insertPairDesc x ys else x :: y :: ys

/-- `similarities.sort(reverse=True)` (news testing.py line 46). -/
def sortPairsDesc : List (ℚ × String) → List (ℚ × String)
  | [] => []
  | x :: xs => insertPairDesc x (sortPairsDesc xs)

end NewsTesting

namespace NewsTesting2

/-! ### src/News Detection/news testing2.py — `bayesian_score` -/

/-- The inner `denominator` expression of `bayesian_score`
(news testing2.py line 27), defined for `support + refute ≠ 0`. -/
def bayesDenominator (support refute : ℕ) : ℚ :=
  let total : ℚ := (support : ℚ) + (refute : ℚ)
  let p_true : ℚ := 1/2
  let p_evidence_true := (support : ℚ) / total
  let p_evidence_false := (refute : ℚ) / total
  p_evidence_true * p_true + p_evidence_false * (1 - p_true)

/-- `bayesian_score` (news testing2.py lines 18-32). -/
def bayesian_score (support refute : ℕ) : ℚ :=
  let total : ℚ := (support : ℚ) + (refute : ℚ)
  if total = 0 then 1/2
  else
    let p_true : ℚ := 1/2
    let p_evidence_true := (support : ℚ) / total
    let denominator := bayesDenominator support refute
    if denominator = 0 then 1/2
    else (p_evidence_true * p_true) / denominator

end NewsTesting2

namespace Scorer

/-! ### The embedding-space similarity computation

`calculate_semantic_similarity` scores each article as
`np.dot(claim_embedding, news_embeddings.T)` — the dot product of the
two embedding vectors, which is their cosine similarity whenever the
embedding backend produces unit-norm vectors (the loaded
`all-MiniLM-L6-v2` sentence-transformer normalises its outputs).  The
backend itself is external, so it is modelled as an arbitrary function
`e` into `Fin n → ℚ`; unit norm is the hypothesis `dotF n (e t) (e t)
= 1`. -/

/-- Dot product of two `n`-dimensional vectors. -/
def dotF (n : ℕ) (u v : Fin n → ℚ) : ℚ :=
  ∑ i, u i * v i

/-- The similarity vector of
`np.dot(claim_embedding, news_embeddings.T).flatten()`: one dot product
per news text. -/
def simScores (n : ℕ) (e : String → Fin n → ℚ) (claim : String)
    (texts : List String) : List ℚ :=
  texts.map (fun t => dotF n (e claim) (e t))

/-- A concrete unit-norm embedding into dimension 1, used to witness the
similarity-range theorem. -/
def constEmb : String → Fin 1 → ℚ := fun _ _ => 1

end Scorer

namespace MainTesting

/-! ### Supporting lemmas -/

theorem maxQ_mem : ∀ {l : List ℚ}, l ≠ [] → maxQ l ∈ l
  | [x], _ => by simp [maxQ]
  | x :: y :: xs, _ => by
    have ih := maxQ_mem (l := y :: xs) (by simp)
    have hmax : maxQ (x :: y :: xs) = max x (maxQ (y :: xs)) := rfl
    rcases le_total x (maxQ (y :: xs)) with h | h
    · rw [hmax, max_eq_right h]
      exact List.mem_cons_of_mem _ ih
    · rw [hmax, max_eq_left h]
      exact List.mem_cons_self _ _

theorem maxQ_le_of (b : ℚ) : ∀ (l : List ℚ), 0 ≤ b → (∀ x ∈ l, x ≤ b) → maxQ l ≤ b
  | [], hb, _ => by simpa [maxQ] using hb
  | [x], _, h => by simpa [maxQ] using h x (by simp)
  | x :: y :: xs, hb, h => by
    have ih := maxQ_le_of b (y :: xs) hb (fun z hz => h z (List.mem_cons_of_mem _ hz))
    simp only [maxQ, max_le_iff]
    exact ⟨h x (by simp), ih⟩

theorem maxQ_eq_zero : ∀ (l : List ℚ), (∀ x ∈ l, x = 0) → maxQ l = 0
  | [], _ => rfl
  | [x], h => by simpa [maxQ] using h x (by simp)
  | x :: y :: xs, h => by
    have ih := maxQ_eq_zero (y :: xs) (fun z hz => h z (List.mem_cons_of_mem _ hz))
    have hx := h x (by simp)
    simp [maxQ, hx, ih]

theorem length_insertDescSim (x : NewsIt) :
    ∀ (l : List NewsIt), (insertDescSim x l).length = l.length + 1
  | [] => rfl
  | y :: ys => by
    by_cases h : x.similarity < y.similarity <;>
      simp [insertDescSim, h, length_insertDescSim x ys]

theorem length_sortDescSim : ∀ (l : List NewsIt), (sortDescSim l).length = l.length
  | [] => rfl
  | x :: xs => by
    simp [sortDescSim, length_insertDescSim, length_sortDescSim xs]

theorem mem_insertDescSim (x z : NewsIt) :
    ∀ (l : List NewsIt), z ∈ insertDescSim x l ↔ z = x ∨ z ∈ l
  | [] => by simp [insertDescSim]
  | y :: ys => by
    by_cases h : x.similarity < y.similarity
    · rw [insertDescSim, if_pos h]
      simp only [List.mem_cons, mem_insertDescSim x z ys]
      tauto
    · rw [insertDescSim, if_neg h]
      simp [List.mem_cons]

theorem pairwise_insertDescSim (x : NewsIt) :
    ∀ (l : List NewsIt),
      l.Pairwise (fun a b => b.similarity ≤ a.similarity) →
      (insertDescSim x l).Pairwise (fun a b => b.similarity ≤ a.similarity)
  | [], _ => by simp [insertDescSim]
  | y :: ys, h => by
    rw [List.pairwise_cons] at h
    by_cases hc : x.similarity < y.similarity
    · rw [insertDescSim, if_pos hc, List.pairwise_cons]
      refine ⟨fun z hz => ?_, pairwise_insertDescSim x ys h.2⟩
      rcases (mem_insertDescSim x z ys).mp hz with rfl | hz
      · exact le_of_lt hc
      · exact h.1 z hz
    · rw [insertDescSim, if_neg hc, List.pairwise_cons]
      refine ⟨fun z hz => ?_, List.pairwise_cons.mpr h⟩
      rcases List.mem_cons.mp hz with rfl | hz
      · exact le_of_not_lt hc
      · exact (h.1 z hz).trans (le_of_not_lt hc)

theorem pairwise_sortDescSim :
    ∀ (l : List NewsIt),
      (sortDescSim l).Pairwise (fun a b => b.similarity ≤ a.similarity)
  | [] => by simp [sortDescSim]
  | x :: xs => pairwise_insertDescSim x _ (pairwise_sortDescSim xs)

theorem filter_insertDescSim_eq (x : NewsIt) (q : ℚ) (hx : x.similarity = q) :
    ∀ (l : List NewsIt),
      (insertDescSim x l).filter (fun it => decide (it.similarity = q)) =
        x :: l.filter (fun it => decide (it.similarity = q))
  | [] => by simp [insertDescSim, hx]
  | y :: ys => by
    by_cases hc : x.similarity < y.similarity
    · have hy : ¬ (y.similarity = q) := by
        intro h
        rw [hx] at hc
        exact absurd h (ne_of_gt hc)
      rw [insertDescSim, if_pos hc]
      rw [List.filter_cons_of_neg (by simpa using hy),
        List.filter_cons_of_neg (by simpa using hy)]
      exact filter_insertDescSim_eq x q hx ys
    · rw [insertDescSim, if_neg hc]
      simp [List.filter_cons, hx]

theorem filter_insertDescSim_ne (x : NewsIt) (q : ℚ) (hx : ¬ (x.similarity = q)) :
    ∀ (l : List NewsIt),
      (insertDescSim x l).filter (fun it => decide (it.similarity = q)) =
        l.filter (fun it => decide (it.similarity = q))
  | [] => by simp [insertDescSim, hx]
  | y :: ys => by
    by_cases hc : x.similarity < y.similarity
    · rw [insertDescSim, if_pos hc]
      simp only [List.filter_cons]
      rw [filter_insertDescSim_ne x q hx ys]
    · rw [insertDescSim, if_neg hc]
      simp [List.filter_cons, hx]

theorem filter_sortDescSim (q : ℚ) :
    ∀ (l : List NewsIt),
      (sortDescSim l).filter (fun it => decide (it.similarity = q)) =
        l.filter (fun it => decide (it.similarity = q))
  | [] => rfl
  | x :: xs => by
    by_cases hx : x.similarity = q
    · rw [sortDescSim, filter_insertDescSim_eq x q hx, filter_sortDescSim q xs]
      simp [List.filter_cons, hx]
    · rw [sortDescSim, filter_insertDescSim_ne x q hx, filter_sortDescSim q xs]
      simp [List.filter_cons, hx]

theorem contraFold_of_ne :
    ∀ (l : List NewsIt) (st : String × ℚ × String),
      st.1 ≠ "Likely True" → contraFold l st = st
  | [], _, _ => rfl
  | it :: rest, (v, c, s), h => by
    rw [contraFold, if_neg (by simp at h ⊢; tauto)]
    exact contraFold_of_ne rest (v, c, s) h

theorem contraFold_fires :
    ∀ (l : List NewsIt) (c : ℚ) (s : String),
      (∃ it ∈ l, containsContraKw it = true) →
      contraFold l ("Likely True", c, s) =
        ("Contradictory Reports", c * (7/10),
          s ++ " However, some sources may contradict this claim.")
  | [], _, _, h => by simp at h
  | it :: rest, c, s, h => by
    by_cases hit : containsContraKw it = true
    · rw [contraFold, if_pos ⟨hit, rfl⟩]
      exact contraFold_of_ne rest _ (by simp)
    · rw [contraFold, if_neg (by tauto)]
      rcases h with ⟨jt, hj, hjk⟩
      rcases List.mem_cons.mp hj with rfl | hj
      · exact absurd hjk hit
      · exact contraFold_fires rest c s ⟨jt, hj, hjk⟩

theorem contraFold_conf_bounds :
    ∀ (l : List NewsIt) (st : String × ℚ × String),
      0 ≤ st.2.1 → st.2.1 ≤ 1 →
      0 ≤ (contraFold l st).2.1 ∧ (contraFold l st).2.1 ≤ 1
  | [], st, h0, h1 => ⟨h0, h1⟩
  | it :: rest, (v, c, s), h0, h1 => by
    rw [contraFold]
    by_cases hc : containsContraKw it = true ∧ v = "Likely True"
    · rw [if_pos hc]
      exact contraFold_conf_bounds rest _ (by positivity) (by nlinarith)
    · rw [if_neg hc]
      exact contraFold_conf_bounds rest _ h0 h1

theorem simsOf_ne_nil {items : List NewsIt} (h : items ≠ []) : simsOf items ≠ [] := by
  simpa [simsOf] using h

theorem joinSpace_ne_empty (w : String) (ws : List String)
    (hw : w.length ≠ 0) : joinSpace (w :: ws) ≠ "" := by
  cases ws with
  | nil =>
    intro heq
    rw [joinSpace] at heq
    rw [heq] at hw
    exact hw rfl
  | cons w2 ws2 =>
    intro heq
    have heq2 : w ++ " " ++ joinSpace (w2 :: ws2) = "" := heq
    have hlen := congrArg String.length heq2
    have hsp : " ".length = 1 := rfl
    have hem : "".length = 0 := rfl
    simp only [String.length_append, hsp, hem] at hlen
    omega

theorem baseVerdict_conf_bounds (items : List NewsIt) (h : items ≠ [])
    (hr : ∀ it ∈ items, -1 ≤ it.similarity ∧ it.similarity ≤ 1) :
    0 ≤ (baseVerdict items).2.1 ∧ (baseVerdict items).2.1 ≤ 1 := by
  have hm : maxQ (simsOf items) ∈ simsOf items := maxQ_mem (simsOf_ne_nil h)
  rcases List.mem_map.mp hm with ⟨it, hit, heq⟩
  have hb := hr it hit
  rw [heq] at hb
  rw [baseVerdict]
  split_ifs with h1 h2 h3 h4
  · refine ⟨le_min (by norm_num) (by linarith [h1.1]), ?_⟩
    exact (min_le_left _ _).trans (by norm_num)
  · exact ⟨by nlinarith [hb.1, hb.2], by nlinarith [hb.1, hb.2]⟩
  · exact ⟨by nlinarith [hb.1, hb.2, h3.1], by nlinarith [hb.1, hb.2]⟩
  · exact ⟨by linarith [hb.1], by linarith [hb.1]⟩
  · exact ⟨by norm_num, by norm_num⟩

end MainTesting

/-! ## Claim theorems -/

/-- C9: for all nonnegative integer counts `support` and `refute`,
`bayesian_score` terminates without dividing by zero and equals the plain
ratio `support/(support+refute)` when `support+refute > 0`, and `0.5`
when `support+refute = 0`; the inner denominator-zero branch is
unreachable (the denominator is always `0.5` when the total is nonzero)
and the result always lies in `[0, 1]`. -/
theorem C9_bayesian_score_total (support refute : ℕ) :
    NewsTesting2.bayesian_score support refute =
      (if ((support : ℚ) + refute = 0) then 1/2
       else (support : ℚ) / ((support : ℚ) + refute)) ∧
    0 ≤ NewsTesting2.bayesian_score support refute ∧
    NewsTesting2.bayesian_score support refute ≤ 1 ∧
    (((support : ℚ) + refute ≠ 0) →
      NewsTesting2.bayesDenominator support refute = 1/2) := by
  have hden : ((support : ℚ) + refute ≠ 0) →
      NewsTesting2.bayesDenominator support refute = 1/2 := by
    intro h
    simp only [NewsTesting2.bayesDenominator]
    field_simp
    ring
  by_cases h : ((support : ℚ) + (refute : ℚ) = 0)
  · simp only [NewsTesting2.bayesian_score, h, if_pos, if_true]
    exact ⟨trivial, by norm_num, by norm_num, fun hne => absurd rfl hne⟩
  · have hpos : (0 : ℚ) < (support : ℚ) + refute :=
      lt_of_le_of_ne (by positivity) (Ne.symm h)
    have hval : NewsTesting2.bayesian_score support refute =
        (support : ℚ) / ((support : ℚ) + refute) := by
      simp only [NewsTesting2.bayesian_score, hden h]
      rw [if_neg h, if_neg (by norm_num)]
      field_simp
      ring
    refine ⟨by rw [hval, if_neg h], ?_, ?_, hden⟩
    · rw [hval]; positivity
    · rw [hval]
      rw [div_le_one hpos]
      have : (0 : ℚ) ≤ (refute : ℚ) := by positivity
      linarith

/-- C9 witness: the theorem evaluated at `support = 2`, `refute = 1`. -/
theorem C9_bayesian_witness :
    NewsTesting2.bayesian_score 2 1 =
      (if ((2 : ℚ) + (1 : ℕ) = 0) then 1/2 else (2 : ℚ) / ((2 : ℚ) + (1 : ℕ))) ∧
    NewsTesting2.bayesDenominator 2 1 = 1/2 :=
  ⟨(C9_bayesian_score_total 2 1).1,
   (C9_bayesian_score_total 2 1).2.2.2 (by norm_num)⟩

/-- C10: for every statement for which articles are retrieved and
vectorization succeeds, `verify_statement` returns `is_true = true`
exactly when the returned confidence (max TF-IDF cosine similarity
times 100) strictly exceeds `5.0`, i.e. when the max similarity exceeds
the `0.05` threshold. -/
theorem C10_verdict_confidence_coupling
    (arts : List (Option String × Option String)) (sims : List ℚ)
    (h : MainPy.get_news_articles (.resp 200 arts) ≠ []) :
    ((MainPy.verify_statement (.resp 200 arts) (.ok sims)).1 = true ↔
      5 < (MainPy.verify_statement (.resp 200 arts) (.ok sims)).2.1) := by
  simp only [MainPy.verify_statement, if_neg h, decide_eq_true_eq]
  constructor <;> intro hx <;> linarith

/-- C10 witness: the theorem evaluated at one retrieved article and
similarity vector `[1]`. -/
theorem C10_coupling_witness :
    MainPy.get_news_articles (.resp 200 [(some "t", some "d")]) ≠ [] ∧
    ((MainPy.verify_statement (.resp 200 [(some "t", some "d")]) (.ok [1])).1 = true ↔
      5 < (MainPy.verify_statement (.resp 200 [(some "t", some "d")]) (.ok [1])).2.1) :=
  ⟨by simp [MainPy.get_news_articles],
   C10_verdict_confidence_coupling [(some "t", some "d")] [1]
     (by simp [MainPy.get_news_articles])⟩

/-- C3 counterexample: the claim `"the"` is non-empty, yet
`extract_keywords` returns the empty string for it — stopword filtering
removes every token and there is no fallback to the original claim.
Likewise `query_keywords` on the non-empty statement `"is"` (tokenized
as `["is"]`) returns the empty string even with an empty stopword
corpus, because the in-source `question_words` set removes the token
and there is no fallback. -/
theorem C3_keyword_fallback_counterexample :
    MainTesting.extract_keywords "the" = "" ∧ "the" ≠ "" ∧
    MainPy.query_keywords [] ["is"] = "" ∧ "is" ≠ "" :=
  ⟨by decide, by decide, by decide, by decide⟩

/-- C3 amended: whenever at least one token survives the filtering,
each extractor returns a non-empty query: `extract_keywords` when the
stopword/length filter keeps a token, and `query_keywords` (for any
stopword corpus and tokenizer output) when its
isalpha/stopword/question-word filter keeps a token; when filtering
removes every token, `query_keywords` returns `""` — neither extractor
falls back to the original claim. -/
theorem C3_nonempty_when_tokens_survive (claim : String)
    (stop_words tokens : List String)
    (h1 : MainTesting.keywordList claim ≠ [])
    (h2 : MainPy.filteredWords stop_words tokens ≠ []) :
    MainTesting.extract_keywords claim ≠ "" ∧
    MainPy.query_keywords stop_words tokens ≠ "" ∧
    (∀ others : List String, MainPy.filteredWords stop_words others = [] →
      MainPy.query_keywords stop_words others = "") := by
  refine ⟨?_, ?_, ?_⟩
  · rcases hK : MainTesting.keywordList claim with _ | ⟨w, ws⟩
    · exact absurd hK h1
    have hwmem : w ∈ MainTesting.keywordList claim := by
      rw [hK]; exact List.mem_cons_self _ _
    have hwfil : w ∈ (MainTesting.reWords claim).filter
        (fun w => !(MainTesting.stopwords.contains w) && 2 < w.length) := by
      rw [MainTesting.keywordList] at hwmem
      exact List.take_subset _ _ hwmem
    have hwlen : 2 < w.length := by
      have := (List.mem_filter.mp hwfil).2
      simp only [Bool.and_eq_true, decide_eq_true_eq] at this
      exact this.2
    rw [MainTesting.extract_keywords, hK]
    exact MainTesting.joinSpace_ne_empty w ws (by omega)
  · rcases hF : MainPy.filteredWords stop_words tokens with _ | ⟨w, ws⟩
    · exact absurd hF h2
    have hwmem : w ∈ MainPy.filteredWords stop_words tokens := by
      rw [hF]; exact List.mem_cons_self _ _
    have hwalpha : MainPy.pyIsAlpha w = true := by
      rw [MainPy.filteredWords] at hwmem
      have := (List.mem_filter.mp hwmem).2
      simp only [Bool.and_eq_true] at this
      exact this.1.1
    have hwlen : w.length ≠ 0 := by
      rw [MainPy.pyIsAlpha, Bool.and_eq_true] at hwalpha
      have hdata : w.data ≠ [] := by
        intro hd
        rw [hd] at hwalpha
        simp at hwalpha
      intro h0
      exact hdata (List.length_eq_zero.mp h0)
    rw [MainPy.query_keywords, hF]
    exact MainTesting.joinSpace_ne_empty w ws hwlen
  · intro others hempty
    rw [MainPy.query_keywords, hempty]
    rfl

/-- C3 witness: the amended theorem evaluated at the claim
`"hello world"`, the stopword corpus `["the"]` and the token list
`["hello", "world"]`. -/
theorem C3_keyword_witness :
    (MainTesting.keywordList "hello world" ≠ [] ∧
     MainPy.filteredWords ["the"] ["hello", "world"] ≠ []) ∧
    (MainTesting.extract_keywords "hello world" ≠ "" ∧
     MainPy.query_keywords ["the"] ["hello", "world"] ≠ "" ∧
     (∀ others : List String, MainPy.filteredWords ["the"] others = [] →
       MainPy.query_keywords ["the"] others = "")) :=
  ⟨⟨by decide, by decide⟩,
   C3_nonempty_when_tokens_survive "hello world" ["the"] ["hello", "world"]
     (by decide) (by decide)⟩

/-- C1 counterexample: in `main.py`, `verify_statement` with a successful
retrieval that yields zero articles returns the boolean verdict `false`
— rendered as `"LIKELY FALSE"` — with confidence `0.0`; this
implementation has no `Unverified` verdict, so the claim's "for every
implementation" fails. -/
theorem C1_mainpy_counterexample :
    MainPy.verify_statement (.resp 200 []) (.ok []) = (false, 0, 0, []) ∧
    MainPy.verdictLabel (MainPy.verify_statement (.resp 200 []) (.ok [])).1 =
      "LIKELY FALSE" ∧
    MainPy.verdictLabel (MainPy.verify_statement (.resp 200 []) (.ok [])).1 ≠
      "Unverified" := by
  have h : MainPy.verify_statement (.resp 200 []) (.ok []) = (false, 0, 0, []) := by
    simp [MainPy.verify_statement, MainPy.get_news_articles]
  exact ⟨h, by rw [h]; rfl, by rw [h]; simp [MainPy.verdictLabel]⟩

/-- C1 amended: with zero retrieved articles, the FastAPI implementations
(`analyze_claim_against_news` and the `check_fact` endpoint) return
verdict `Unverified` with confidence exactly `0.0` and an explanatory
summary; the `main.py` implementation also returns confidence `0.0` but
its verdict is the boolean `false` (rendered `LIKELY FALSE`), not
`Unverified`. -/
theorem C1_zero_articles_unverified (claim : String)
    (emb : MainTesting.EmbedOutcome) (vect : MainPy.VectOutcome)
    (h : 3 ≤ (MainTesting.pyStrip claim).length) :
    MainTesting.analyze_claim_against_news [] =
      ⟨"Unverified", 0,
        "No recent news found related to this claim. Unable to verify."⟩ ∧
    MainTesting.check_fact claim (.feed []) emb =
      .ok ⟨"Unverified", 0,
        "No recent news found related to this claim. This may be a very recent event or the claim may not be newsworthy.",
        []⟩ ∧
    MainPy.verify_statement (.resp 200 []) vect = (false, 0, 0, []) := by
  refine ⟨rfl, ?_, ?_⟩
  · rw [MainTesting.check_fact, if_neg (by omega)]
    simp [MainTesting.fetch_google_news]
  · cases vect <;> simp [MainPy.verify_statement, MainPy.get_news_articles]

/-- C1 witness: the amended theorem evaluated at the claim `"abcd"`,
an unavailable embedding model and a raising vectorizer. -/
theorem C1_zero_articles_witness :
    3 ≤ (MainTesting.pyStrip "abcd").length ∧
    (MainTesting.analyze_claim_against_news [] =
      ⟨"Unverified", 0,
        "No recent news found related to this claim. Unable to verify."⟩ ∧
    MainTesting.check_fact "abcd" (.feed []) .noModel =
      .ok ⟨"Unverified", 0,
        "No recent news found related to this claim. This may be a very recent event or the claim may not be newsworthy.",
        []⟩ ∧
    MainPy.verify_statement (.resp 200 []) .exc = (false, 0, 0, [])) :=
  ⟨by decide, C1_zero_articles_unverified "abcd" .noModel .exc (by decide)⟩

/-- C7 counterexample: with the retrieval backend returning HTTP 500,
`main.py`'s verification completes with `(false, 0.0, 0, [])` — the
rendered verdict is `"LIKELY FALSE"`, not `Unverified` as the claim
states. -/
theorem C7_mainpy_counterexample :
    MainPy.verify_statement (.resp 500 [(some "t", some "d")]) (.ok [1]) =
      (false, 0, 0, []) ∧
    MainPy.verdictLabel
        (MainPy.verify_statement (.resp 500 [(some "t", some "d")]) (.ok [1])).1 ≠
      "Unverified" := by
  have h : MainPy.verify_statement (.resp 500 [(some "t", some "d")]) (.ok [1]) =
      (false, 0, 0, []) := by
    simp [MainPy.verify_statement, MainPy.get_news_articles]
  exact ⟨h, by rw [h]; simp [MainPy.verdictLabel]⟩

/-- C7 amended: both retrievers return an empty sequence rather than
raising whenever the source is unreachable (a raised exception), returns
a non-success status, or yields zero matches; under retrieval failure
the FastAPI `check_fact` completes with verdict `Unverified` and
confidence `0.0`, and `main.py`'s verification completes with
`(false, 0.0, 0, [])` (no exception escapes, but its verdict label is
`LIKELY FALSE`, not `Unverified`). -/
theorem C7_retrieval_failure_empty (claim : String) (status : ℕ)
    (arts : List (Option String × Option String))
    (emb : MainTesting.EmbedOutcome)
    (hclaim : 3 ≤ (MainTesting.pyStrip claim).length) (hstatus : status ≠ 200) :
    MainTesting.fetch_google_news .exc 15 = [] ∧
    MainTesting.fetch_google_news (.feed []) 15 = [] ∧
    MainPy.get_news_articles .exc = [] ∧
    MainPy.get_news_articles (.resp status arts) = [] ∧
    MainTesting.check_fact claim .exc emb =
      .ok ⟨"Unverified", 0,
        "No recent news found related to this claim. This may be a very recent event or the claim may not be newsworthy.",
        []⟩ ∧
    (∀ vect, MainPy.verify_statement (.resp status arts) vect =
      (false, 0, 0, [])) := by
  have hget : MainPy.get_news_articles (.resp status arts) = [] := by
    simp [MainPy.get_news_articles, hstatus]
  refine ⟨rfl, rfl, rfl, hget, ?_, ?_⟩
  · rw [MainTesting.check_fact, if_neg (by omega)]
    simp [MainTesting.fetch_google_news]
  · intro vect
    cases vect <;> simp [MainPy.verify_statement, hget]

/-- C7 witness: the amended theorem evaluated at the claim `"abcd"` and
an HTTP 500 response. -/
theorem C7_retrieval_witness :
    (3 ≤ (MainTesting.pyStrip "abcd").length ∧ (500 : ℕ) ≠ 200) ∧
    (MainTesting.check_fact "abcd" .exc .noModel =
      .ok ⟨"Unverified", 0,
        "No recent news found related to this claim. This may be a very recent event or the claim may not be newsworthy.",
        []⟩ ∧
    MainPy.verify_statement (.resp 500 []) (.ok [1]) = (false, 0, 0, [])) :=
  ⟨⟨by decide, by decide⟩,
   ⟨(C7_retrieval_failure_empty "abcd" 500 [] .noModel (by decide) (by decide)).2.2.2.2.1,
    (C7_retrieval_failure_empty "abcd" 500 [] .noModel (by decide) (by decide)).2.2.2.2.2
      (.ok [1])⟩⟩

/-- C8: if the embedding backend is unavailable (model failed to load)
or the embedding computation raises, the scorer assigns similarity `0.0`
to every article, and for a non-empty article list the analysis still
completes with the well-formed verdict `Unverified` at confidence `0.1`. -/
theorem C8_embedding_unavailable_degrade (items : List MainTesting.NewsIt)
    (h : items ≠ []) :
    (∀ it ∈ MainTesting.calculate_semantic_similarity .noModel items,
      it.similarity = 0) ∧
    (∀ it ∈ MainTesting.calculate_semantic_similarity .exc items,
      it.similarity = 0) ∧
    ((MainTesting.analyze_claim_against_news
        (MainTesting.calculate_semantic_similarity .noModel items)).verdict =
      "Unverified" ∧
     (MainTesting.analyze_claim_against_news
        (MainTesting.calculate_semantic_similarity .noModel items)).confidence =
      1/10) ∧
    ((MainTesting.analyze_claim_against_news
        (MainTesting.calculate_semantic_similarity .exc items)).verdict =
      "Unverified" ∧
     (MainTesting.analyze_claim_against_news
        (MainTesting.calculate_semantic_similarity .exc items)).confidence =
      1/10) := by
  have hmap : MainTesting.calculate_semantic_similarity .noModel items =
      items.map (fun it => { it with similarity := 0 }) := rfl
  have hmap2 : MainTesting.calculate_semantic_similarity .exc items =
      items.map (fun it => { it with similarity := 0 }) := rfl
  have hall : ∀ it ∈ items.map
      (fun it => ({ it with similarity := 0 } : MainTesting.NewsIt)),
      it.similarity = 0 := by
    intro it hit
    rcases List.mem_map.mp hit with ⟨jt, _, rfl⟩
    rfl
  have hne : items.map
      (fun it => ({ it with similarity := 0 } : MainTesting.NewsIt)) ≠ [] := by
    simpa using h
  have hmax : MainTesting.maxQ (MainTesting.simsOf (items.map
      (fun it => ({ it with similarity := 0 } : MainTesting.NewsIt)))) = 0 := by
    apply MainTesting.maxQ_eq_zero
    intro x hx
    rcases List.mem_map.mp hx with ⟨it, hit, rfl⟩
    exact hall it hit
  have hana : MainTesting.analyze_claim_against_news (items.map
      (fun it => ({ it with similarity := 0 } : MainTesting.NewsIt))) =
      ⟨"Unverified", 1/10,
        "No semantically similar news found. This claim may be unverified or relates to very recent events not yet covered by major news sources."⟩ := by
    rw [MainTesting.analyze_claim_against_news, if_neg hne, if_pos (Or.inr hmax)]
  rw [hmap, hmap2]
  exact ⟨hall, hall, by rw [hana]; exact ⟨rfl, rfl⟩, by rw [hana]; exact ⟨rfl, rfl⟩⟩

/-- C8 witness: the theorem evaluated at a single article whose stale
similarity value `5` is overwritten with `0`. -/
theorem C8_degrade_witness :
    ([⟨"t", "d", "l", "s", 5⟩] : List MainTesting.NewsIt) ≠ [] ∧
    (∀ it ∈ MainTesting.calculate_semantic_similarity .noModel
        [⟨"t", "d", "l", "s", 5⟩], it.similarity = 0) ∧
    (MainTesting.analyze_claim_against_news
        (MainTesting.calculate_semantic_similarity .noModel
          [⟨"t", "d", "l", "s", 5⟩])).verdict = "Unverified" :=
  ⟨by simp,
   (C8_embedding_unavailable_degrade [⟨"t", "d", "l", "s", 5⟩] (by simp)).1,
   (C8_embedding_unavailable_degrade [⟨"t", "d", "l", "s", 5⟩] (by simp)).2.2.1.1⟩

/-- C2 counterexample: in `news testing.py` the `(score, title)` pairs
are sorted with `similarities.sort(reverse=True)`, which compares whole
tuples; with two articles of equal score `1/2` and titles `"a"`, `"b"`
in retrieval order, the sorted output reverses them (descending title),
so equal scores do not keep their original retrieval order. -/
theorem C2_tuple_sort_counterexample :
    NewsTesting.sortPairsDesc [(1/2, "a"), (1/2, "b")] =
      [(1/2, "b"), (1/2, "a")] ∧
    NewsTesting.sortPairsDesc [(1/2, "a"), (1/2, "b")] ≠
      [(1/2, "a"), (1/2, "b")] := by
  have h : NewsTesting.strLt "a".data "b".data = true := by decide
  have hs : NewsTesting.sortPairsDesc [(1/2, "a"), (1/2, "b")] =
      [(1/2, "b"), (1/2, "a")] := by
    norm_num [NewsTesting.sortPairsDesc, NewsTesting.insertPairDesc,
      NewsTesting.pairGT, h]
  exact ⟨hs, by rw [hs]; simp⟩

/-- C2 amended: in `main testing.py` the scoring stage produces exactly
one similarity score per article (the output list has the input's
length, for every embedding outcome), and before verdict computation the
articles are sorted by descending similarity with equal scores keeping
their original retrieval order (the filter at every score value is
preserved); in `news testing.py` ties are instead broken by descending
title. -/
theorem C2_scoring_count_sorted_stable (sims : List ℚ)
    (items : List MainTesting.NewsIt) :
    (∀ emb, (MainTesting.calculate_semantic_similarity emb items).length =
      items.length) ∧
    (MainTesting.calculate_semantic_similarity (.ok sims) items).Pairwise
      (fun a b => b.similarity ≤ a.similarity) ∧
    (∀ q : ℚ,
      (MainTesting.calculate_semantic_similarity (.ok sims) items).filter
          (fun it => decide (it.similarity = q)) =
        (MainTesting.assignSims sims items).filter
          (fun it => decide (it.similarity = q))) := by
  have hassign : (MainTesting.assignSims sims items).length = items.length := by
    simp [MainTesting.assignSims, List.enum_length]
  refine ⟨?_, ?_, ?_⟩
  · intro emb
    cases emb with
    | noModel => simp [MainTesting.calculate_semantic_similarity]
    | exc => simp [MainTesting.calculate_semantic_similarity]
    | ok s =>
      by_cases he : items.isEmpty
      · rw [MainTesting.calculate_semantic_similarity, if_pos he]
      · rw [MainTesting.calculate_semantic_similarity, if_neg he,
          MainTesting.length_sortDescSim]
        simp [MainTesting.assignSims, List.enum_length]
  · by_cases he : items.isEmpty
    · rw [MainTesting.calculate_semantic_similarity, if_pos he]
      rw [List.isEmpty_iff] at he
      subst he
      exact List.Pairwise.nil
    · rw [MainTesting.calculate_semantic_similarity, if_neg he]
      exact MainTesting.pairwise_sortDescSim _
  · intro q
    by_cases he : items.isEmpty
    · rw [MainTesting.calculate_semantic_similarity, if_pos he]
      rw [List.isEmpty_iff] at he
      subst he
      rfl
    · rw [MainTesting.calculate_semantic_similarity, if_neg he]
      exact MainTesting.filter_sortDescSim q _

/-- C4 counterexample: the code never clamps the confidence; with a
single article whose (raw dot-product) similarity is `2`, the policy
takes the `Possibly True` branch and returns confidence
`2 * 0.8 = 1.6 > 1`. -/
theorem C4_confidence_counterexample :
    (MainTesting.analyze_claim_against_news [⟨"t", "", "", "", 2⟩]).confidence
      = 8/5 ∧
    ¬ (MainTesting.analyze_claim_against_news
        [⟨"t", "", "", "", 2⟩]).confidence ≤ 1 := by
  have hcck : MainTesting.containsContraKw ⟨"t", "", "", "", 2⟩ = false := by
    decide
  have hval : (MainTesting.analyze_claim_against_news
      [⟨"t", "", "", "", 2⟩]).confidence = 8/5 := by
    norm_num [MainTesting.analyze_claim_against_news, MainTesting.baseVerdict,
      MainTesting.contraFold, MainTesting.simsOf, MainTesting.highItems,
      MainTesting.medItems, MainTesting.maxQ, List.filter, List.cons_ne_nil,
      hcck]
  exact ⟨hval, by rw [hval]; norm_num⟩

/-- C4 amended: when every similarity score lies in the cosine range
`[-1, 1]` the confidence of `analyze_claim_against_news` lies in
`[0, 1]` on every branch of the verdict policy, and when every TF-IDF
cosine score lies in `[0, 1]` the percentage confidence of `main.py`'s
`verify_statement` lies in `[0, 100]`; for similarity values outside
that range the code performs no clamping (see the counterexample). -/
theorem C4_confidence_range (items : List MainTesting.NewsIt)
    (arts : List (Option String × Option String)) (qsims : List ℚ)
    (h1 : ∀ it ∈ items, -1 ≤ it.similarity ∧ it.similarity ≤ 1)
    (h2 : ∀ s ∈ qsims, 0 ≤ s ∧ s ≤ 1) :
    (0 ≤ (MainTesting.analyze_claim_against_news items).confidence ∧
      (MainTesting.analyze_claim_against_news items).confidence ≤ 1) ∧
    (0 ≤ (MainPy.verify_statement (.resp 200 arts) (.ok qsims)).2.1 ∧
      (MainPy.verify_statement (.resp 200 arts) (.ok qsims)).2.1 ≤ 100) := by
  constructor
  · by_cases hne : items = []
    · subst hne
      rw [MainTesting.analyze_claim_against_news, if_pos rfl]
      norm_num
    · by_cases hz : MainTesting.simsOf items = [] ∨
        MainTesting.maxQ (MainTesting.simsOf items) = 0
      · rw [MainTesting.analyze_claim_against_news, if_neg hne, if_pos hz]
        norm_num
      · rw [MainTesting.analyze_claim_against_news, if_neg hne, if_neg hz]
        have hbase := MainTesting.baseVerdict_conf_bounds items hne h1
        exact MainTesting.contraFold_conf_bounds
          ((MainTesting.highItems items).take 3)
          (MainTesting.baseVerdict items) hbase.1 hbase.2
  · rw [MainPy.verify_statement]
    by_cases hne : MainPy.get_news_articles (.resp 200 arts) = []
    · rw [if_pos hne]
      norm_num
    · rw [if_neg hne]
      have hub : MainTesting.maxQ qsims ≤ 1 :=
        MainTesting.maxQ_le_of 1 qsims (by norm_num) (fun x hx => (h2 x hx).2)
      have hlb : 0 ≤ MainTesting.maxQ qsims := by
        rcases qsims with _ | ⟨s, ss⟩
        · norm_num [MainTesting.maxQ]
        · exact (h2 _ (MainTesting.maxQ_mem (by simp))).1
      constructor
      · show 0 ≤ MainTesting.maxQ qsims * 100
        nlinarith
      · show MainTesting.maxQ qsims * 100 ≤ 100
        nlinarith

/-- C4 witness: the amended theorem evaluated at one article with
similarity `1` and the empty TF-IDF score list. -/
theorem C4_confidence_witness :
    (∀ it ∈ ([⟨"t", "", "", "", 1⟩] : List MainTesting.NewsIt),
      -1 ≤ it.similarity ∧ it.similarity ≤ 1) ∧
    ((0 ≤ (MainTesting.analyze_claim_against_news
        [⟨"t", "", "", "", 1⟩]).confidence ∧
      (MainTesting.analyze_claim_against_news
        [⟨"t", "", "", "", 1⟩]).confidence ≤ 1) ∧
    (0 ≤ (MainPy.verify_statement (.resp 200 []) (.ok [])).2.1 ∧
      (MainPy.verify_statement (.resp 200 []) (.ok [])).2.1 ≤ 100)) :=
  ⟨by intro it hit; rw [List.mem_singleton] at hit; subst hit; norm_num,
   C4_confidence_range [⟨"t", "", "", "", 1⟩] [] []
     (by intro it hit; rw [List.mem_singleton] at hit; subst hit; norm_num)
     (by intro s hs; simp at hs)⟩

/-- C5: modelling the embedding backend as any map `e` into unit-norm
vectors (the loaded `all-MiniLM-L6-v2` model normalises its outputs),
every similarity score the scorer computes — the dot product
`np.dot(claim_embedding, news_embeddings.T)`, which is the cosine
similarity of unit vectors — lies in `[-1, 1]`, and the score for an
article whose text is identical to the claim equals the maximum `1`. -/
theorem C5_similarity_range (n : ℕ) (e : String → Fin n → ℚ)
    (hu : ∀ t, Scorer.dotF n (e t) (e t) = 1) (claim : String)
    (texts : List String) :
    (∀ s ∈ Scorer.simScores n e claim texts, -1 ≤ s ∧ s ≤ 1) ∧
    (∀ t ∈ texts, t = claim → Scorer.dotF n (e claim) (e t) = 1) := by
  constructor
  · intro s hs
    rcases List.mem_map.mp hs with ⟨t, _, rfl⟩
    have hcs : (Scorer.dotF n (e claim) (e t)) ^ 2 ≤ 1 := by
      have h := Finset.sum_mul_sq_le_sq_mul_sq Finset.univ (e claim) (e t)
      have e1 : ∑ i, (e claim) i ^ 2 = Scorer.dotF n (e claim) (e claim) := by
        simp [Scorer.dotF, sq]
      have e2 : ∑ i, (e t) i ^ 2 = Scorer.dotF n (e t) (e t) := by
        simp [Scorer.dotF, sq]
      calc (Scorer.dotF n (e claim) (e t)) ^ 2 ≤ _ := h
        _ = 1 := by rw [e1, e2, hu claim, hu t]; norm_num
    exact abs_le.mp ((sq_le_one_iff_abs_le_one _).mp hcs)
  · intro t _ ht
    subst ht
    exact hu t

/-- C5 witness: the theorem evaluated at the constant unit embedding in
dimension 1, with the article text identical to the claim. -/
theorem C5_similarity_witness :
    (∀ t, Scorer.dotF 1 (Scorer.constEmb t) (Scorer.constEmb t) = 1) ∧
    (∀ s ∈ Scorer.simScores 1 Scorer.constEmb "x" ["x"], -1 ≤ s ∧ s ≤ 1) ∧
    (∀ t ∈ ["x"], t = "x" →
      Scorer.dotF 1 (Scorer.constEmb "x") (Scorer.constEmb t) = 1) :=
  have hu : ∀ t, Scorer.dotF 1 (Scorer.constEmb t) (Scorer.constEmb t) = 1 :=
    fun t => by simp [Scorer.dotF, Scorer.constEmb]
  ⟨hu, (C5_similarity_range 1 Scorer.constEmb hu "x" ["x"]).1,
   (C5_similarity_range 1 Scorer.constEmb hu "x" ["x"]).2⟩

/-- C6 counterexample: the code's lexicon is `['not', 'never', 'false',
'denies', 'refutes', 'contrary', 'opposite']` — it contains neither
`"hoax"` nor `"debunked"` (those appear only in `news testing2.py`'s
`refute_phrases`); with both top articles containing "debunked" at
similarity `0.8` (so the base verdict is `Likely True` with two
high-similarity matches) no downgrade happens: the verdict stays
`Likely True` at the undamped confidence `0.9`. -/
theorem C6_lexicon_counterexample :
    (MainTesting.analyze_claim_against_news
      [⟨"claim debunked", "", "", "", 4/5⟩,
       ⟨"also debunked", "", "", "", 4/5⟩]).verdict = "Likely True" ∧
    (MainTesting.analyze_claim_against_news
      [⟨"claim debunked", "", "", "", 4/5⟩,
       ⟨"also debunked", "", "", "", 4/5⟩]).confidence = 9/10 ∧
    "debunked" ∉ MainTesting.contradictory_keywords ∧
    "hoax" ∉ MainTesting.contradictory_keywords ∧
    MainTesting.containsContraKw ⟨"claim debunked", "", "", "", 4/5⟩ = false := by
  have hk1 : MainTesting.containsContraKw
      ⟨"claim debunked", "", "", "", 4/5⟩ = false := by decide
  have hk2 : MainTesting.containsContraKw
      ⟨"also debunked", "", "", "", 4/5⟩ = false := by decide
  refine ⟨?_, ?_, by decide, by decide, hk1⟩ <;>
    norm_num [MainTesting.analyze_claim_against_news, MainTesting.baseVerdict,
      MainTesting.contraFold, MainTesting.simsOf, MainTesting.highItems,
      MainTesting.medItems, MainTesting.maxQ, List.filter, List.cons_ne_nil,
      hk1, hk2]

/-- C6 amended: if the base policy assigns `Likely True` (max similarity
above `0.7` with at least two high-similarity articles) and any of the
top-3 high-similarity articles contains a keyword of the code's actual
lexicon (`not`, `never`, `false`, `denies`, `refutes`, `contrary`,
`opposite`, matched as substrings), the verdict is downgraded to
`Contradictory Reports` and the confidence is multiplied exactly once by
`0.7` relative to the undamped `Likely True` confidence. -/
theorem C6_contradiction_downgrade (items : List MainTesting.NewsIt)
    (h1 : 7/10 < MainTesting.maxQ (MainTesting.simsOf items))
    (h2 : 2 ≤ (MainTesting.highItems items).length)
    (h3 : ∃ it ∈ (MainTesting.highItems items).take 3,
      MainTesting.containsContraKw it = true) :
    (MainTesting.analyze_claim_against_news items).verdict =
      "Contradictory Reports" ∧
    (MainTesting.analyze_claim_against_news items).confidence =
      min (9/10) (MainTesting.maxQ (MainTesting.simsOf items) + 1/10) *
        (7/10) := by
  have hne : items ≠ [] := by
    intro he
    subst he
    rw [show MainTesting.simsOf [] = [] from rfl,
      show MainTesting.maxQ [] = 0 from rfl] at h1
    norm_num at h1
  have hz : ¬ (MainTesting.simsOf items = [] ∨
      MainTesting.maxQ (MainTesting.simsOf items) = 0) := by
    push_neg
    refine ⟨MainTesting.simsOf_ne_nil hne, ?_⟩
    intro h0
    rw [h0] at h1
    norm_num at h1
  have hbase : MainTesting.baseVerdict items =
      ("Likely True",
        min (9/10) (MainTesting.maxQ (MainTesting.simsOf items) + 1/10),
        "Found highly similar news reports supporting this claim.") := by
    rw [MainTesting.baseVerdict, if_pos ⟨h1, h2⟩]
  have hfold : MainTesting.contraFold ((MainTesting.highItems items).take 3)
      (MainTesting.baseVerdict items) =
      ("Contradictory Reports",
        min (9/10) (MainTesting.maxQ (MainTesting.simsOf items) + 1/10) *
          (7/10),
        "Found highly similar news reports supporting this claim." ++
          " However, some sources may contradict this claim.") := by
    rw [hbase]
    exact MainTesting.contraFold_fires _ _ _ h3
  rw [MainTesting.analyze_claim_against_news, if_neg hne, if_neg hz]
  refine ⟨?_, ?_⟩
  · show (MainTesting.contraFold ((MainTesting.highItems items).take 3)
      (MainTesting.baseVerdict items)).1 = "Contradictory Reports"
    rw [hfold]
  · show (MainTesting.contraFold ((MainTesting.highItems items).take 3)
      (MainTesting.baseVerdict items)).2.1 =
      min (9/10) (MainTesting.maxQ (MainTesting.simsOf items) + 1/10) * (7/10)
    rw [hfold]

/-- C6 witness: the amended theorem evaluated at two articles of
similarities `0.8` and `0.6`, the first containing the lexicon keyword
`"false"`; the result is `Contradictory Reports` at confidence
`0.9 * 0.7`. -/
theorem C6_downgrade_witness :
    (7/10 < MainTesting.maxQ (MainTesting.simsOf
        [⟨"a is false", "", "", "", 4/5⟩, ⟨"b", "", "", "", 3/5⟩]) ∧
     2 ≤ (MainTesting.highItems
        [⟨"a is false", "", "", "", 4/5⟩, ⟨"b", "", "", "", 3/5⟩]).length) ∧
    (MainTesting.analyze_claim_against_news
        [⟨"a is false", "", "", "", 4/5⟩, ⟨"b", "", "", "", 3/5⟩]).verdict =
      "Contradictory Reports" ∧
    (MainTesting.analyze_claim_against_news
        [⟨"a is false", "", "", "", 4/5⟩, ⟨"b", "", "", "", 3/5⟩]).confidence =
      min (9/10) (MainTesting.maxQ (MainTesting.simsOf
        [⟨"a is false", "", "", "", 4/5⟩, ⟨"b", "", "", "", 3/5⟩]) + 1/10) *
        (7/10) := by
  have hmax : MainTesting.maxQ (MainTesting.simsOf
      [⟨"a is false", "", "", "", 4/5⟩, ⟨"b", "", "", "", 3/5⟩]) = 4/5 := by
    norm_num [MainTesting.simsOf, MainTesting.maxQ]
  have hhigh : MainTesting.highItems
      [⟨"a is false", "", "", "", 4/5⟩, ⟨"b", "", "", "", 3/5⟩] =
      [⟨"a is false", "", "", "", 4/5⟩, ⟨"b", "", "", "", 3/5⟩] := by
    norm_num [MainTesting.highItems, List.filter]
  have h1 : 7/10 < MainTesting.maxQ (MainTesting.simsOf
      [⟨"a is false", "", "", "", 4/5⟩, ⟨"b", "", "", "", 3/5⟩]) := by
    rw [hmax]; norm_num
  have h2 : 2 ≤ (MainTesting.highItems
      [⟨"a is false", "", "", "", 4/5⟩, ⟨"b", "", "", "", 3/5⟩]).length := by
    rw [hhigh]; rfl
  have h3 : ∃ it ∈ (MainTesting.highItems
      [⟨"a is false", "", "", "", 4/5⟩, ⟨"b", "", "", "", 3/5⟩]).take 3,
      MainTesting.containsContraKw it = true := by
    refine ⟨⟨"a is false", "", "", "", 4/5⟩, ?_, by decide⟩
    rw [hhigh]
    simp
  exact ⟨⟨h1, h2⟩,
    C6_contradiction_downgrade _ h1 h2 h3⟩
